import Mathlib

/-!
Verification of the project-status describer (pkg/cmd/cli/describe/projectstatus.go).

The Go code is shallowly embedded below.  Go strings that are only
concatenated or compared for equality are modelled as Lean `String`;
Go strings that are *ordered* (route strings, marker keys) are modelled
as their lists of character codes (`List Nat`), with Go's byte-wise
string comparison modelled by the lexicographic order `lexLt`.
-/

/-- Character codes of a string literal; the model of an ordered Go string. -/
def strCodes (s : String) : List Nat := s.data.map Char.toNat

/-- Go byte-wise string comparison `a < b`, on character-code lists. -/
def lexLt : List Nat → List Nat → Bool
  | [], [] => false
  | [], _ :: _ => true
  | _ :: _, [] => false
  | a :: as, b :: bs => if a < b then true else if b < a then false else lexLt as bs

/-- Stable insertion into a list already processed by `insertionSortBy`:
the new element goes before the first element not strictly below it. -/
def orderedInsertBy (lt : α → α → Bool) (a : α) : List α → List α
  | [] => [a]
  | b :: l => if lt b a then b :: orderedInsertBy lt a l else a :: b :: l

/-- Stable sort by a strict `less` function; the model of Go `sort.Stable`
(and, for a strict total order, of `sort.Sort`, whose result is then unique). -/
def insertionSortBy (lt : α → α → Bool) : List α → List α
  | [] => []
  | a :: l => orderedInsertBy lt a (insertionSortBy lt l)

/-- Go `strings.Index(s, " ")`, with -1 replaced by `len(s)` as in
`exposedRoutes.Less`: the length of the segment up to the first space. -/
def lenToSpace (a : List Nat) : Nat := (a.findIdx? (fun c => c == 32)).getD a.length

/-- Character codes of "https://". -/
def httpsScheme : List Nat := strCodes "https://"

/-- Character codes of "http://". -/
def httpScheme : List Nat := strCodes "http://"

/-- The shared tail comparison of `exposedRoutes.Less` after stripping a
common scheme: segment length up to the first space, then lexicographic. -/
def routeTailLess (a b : List Nat) : Bool :=
  let lA := lenToSpace a
  let lB := lenToSpace b
  if lA < lB then true
  else if lA > lB then false
  else lexLt a b

/-- `exposedRoutes.Less` from projectstatus.go: https:// before http://
before anything else; within a scheme, by length up to the first space and
then lexicographically on the stripped string; between two scheme-less
strings, directly lexicographically. -/
def exposedRoutesLess (a b : List Nat) : Bool :=
  let prefixA := httpsScheme.isPrefixOf a
  let prefixB := httpsScheme.isPrefixOf b
  if prefixA && !prefixB then true
  else if !prefixA && prefixB then false
  else if !prefixA && !prefixB then
    let pA := httpScheme.isPrefixOf a
    let pB := httpScheme.isPrefixOf b
    if pA && !pB then true
    else if !pA && pB then false
    else if !pA && !pB then lexLt a b
    else routeTailLess (a.drop 7) (b.drop 7)
  else routeTailLess (a.drop 8) (b.drop 8)

/-- The comparator claimed by the spec, word for word: scheme priority,
then the length of the substring up to the first space, then lexicographic
on the raw string — the middle level applied to every pair. -/
def specClaimedRouteLess (a b : List Nat) : Bool :=
  let rankA := if httpsScheme.isPrefixOf a then 0 else if httpScheme.isPrefixOf a then 1 else 2
  let rankB := if httpsScheme.isPrefixOf b then 0 else if httpScheme.isPrefixOf b then 1 else 2
  if rankA < rankB then true
  else if rankB < rankA then false
  else if lenToSpace a < lenToSpace b then true
  else if lenToSpace b < lenToSpace a then false
  else lexLt a b

/-- Scheme rank of a route string: 0 for https://, 1 for http://, 2 otherwise. -/
def routeRank (a : List Nat) : Nat :=
  if httpsScheme.isPrefixOf a then 0 else if httpScheme.isPrefixOf a then 1 else 2

/-- The string actually compared by the second and third levels of
`exposedRoutes.Less`: the scheme is stripped, scheme-less strings are kept whole. -/
def routeBody (a : List Nat) : List Nat :=
  if httpsScheme.isPrefixOf a then a.drop 8
  else if httpScheme.isPrefixOf a then a.drop 7 else a

/-- The middle key of `exposedRoutes.Less`: length up to the first space of
the stripped string for scheme strings, unused (0) for scheme-less strings. -/
def routeSpaceLen (a : List Nat) : Nat :=
  if routeRank a = 2 then 0 else lenToSpace (routeBody a)

/-- Three-level tuple comparison on (rank, space-length, body): the corrected
form of the spec's tuple, with the length level only inside a scheme class. -/
def routeKeyLess (a b : List Nat) : Bool :=
  if routeRank a < routeRank b then true
  else if routeRank b < routeRank a then false
  else if routeSpaceLen a < routeSpaceLen b then true
  else if routeSpaceLen b < routeSpaceLen a then false
  else lexLt (routeBody a) (routeBody b)

/-! ### Markers and their ordering (Describe, lines 233-245) -/

/-- Marker severity (osgraph.Severity, as used here). -/
inductive MarkerSeverity where
  | warning
  | error
  deriving DecidableEq

/-- Modelled from the spec: an osgraph.Marker as the sort/bucket pipeline sees
it — severity, string key, the identity of the related node (markers with no
node carry the zero identity), message and suggestion text.  The key is a
character-code list because markers are ordered by it. -/
structure Marker where
  severity : MarkerSeverity
  key : List Nat
  nodeID : Nat
  message : String
  suggestion : String
  deriving DecidableEq

/-- Modelled from the spec: the `osgraph.ByKey` comparator — markers ordered
by their key string. -/
def byKeyLess (a b : Marker) : Bool := lexLt a.key b.key

/-- Modelled from the spec: the `osgraph.ByNodeID` comparator — markers
ordered by related-node identity. -/
def byNodeIDLess (a b : Marker) : Bool := decide (a.nodeID < b.nodeID)

/-- The two stable sort passes of Describe (lines 244-245):
`sort.Stable(ByKey)` first, then `sort.Stable(ByNodeID)` on the result. -/
def sortMarkers (l : List Marker) : List Marker :=
  insertionSortBy byNodeIDLess (insertionSortBy byKeyLess l)

/-! ### Loader fan-out and graph construction (MakeGraph, lines 59-119) -/

/-- The API errors the loader fan-out distinguishes: Forbidden (optionally
carrying `Status().Details.Kind`; `none` models nil Details), NotFound, and
anything else. -/
inductive APIError where
  | forbidden (kind : Option String)
  | notFound
  | other (msg : String)
  deriving DecidableEq

/-- One GraphLoader: the outcome of its lister call, and whether its Load
wraps the error in `errors.TolerateNotFoundError` (true exactly for the
bcLoader and the buildLoader). -/
structure LoaderSpec (α : Type) where
  listResult : Except APIError (List α)
  tolerateNotFound : Bool

/-- The result of a loader's `Load`: on success the items are staged; a
tolerated NotFound is converted to success with nothing staged (the loader's
`items` field is never assigned); any other error is returned. -/
def loadResult (l : LoaderSpec α) : Except APIError (List α) :=
  match l.listResult with
  | .error APIError.notFound =>
      if l.tolerateNotFound then .ok [] else .error APIError.notFound
  | r => r

/-- The items a loader has staged for `AddToGraph` (empty when Load failed). -/
def stagedItems (l : LoaderSpec α) : List α :=
  match loadResult l with
  | .ok items => items
  | .error _ => []

/-- Modelled from the spec: `parallel.Run` runs every Load to completion and
hands back the collected non-nil errors; completion order is modelled as task
order. -/
def collectLoadErrors (loaders : List (LoaderSpec α)) : List APIError :=
  loaders.filterMap (fun l =>
    match loadResult l with
    | .error e => some e
    | .ok _ => none)

/-- `sets.String.Insert` on the model of a string set: an order-preserving
insert-if-absent list. -/
def insertKind (kinds : List String) (k : String) : List String :=
  if k ∈ kinds then kinds else kinds ++ [k]

/-- The error-classification loop of MakeGraph (lines 83-93): Forbidden
errors whose Details carry a non-empty Kind record the kind; all other
Forbidden errors are dropped; everything else is an actual error. -/
def classifyLoadErrors (forb : List String) (actual : List APIError) :
    List APIError → List String × List APIError
  | [] => (forb, actual)
  | e :: rest =>
    match e with
    | APIError.forbidden (some k) =>
        if k.length > 0 then classifyLoadErrors (insertKind forb k) actual rest
        else classifyLoadErrors forb actual rest
    | APIError.forbidden none => classifyLoadErrors forb actual rest
    | e => classifyLoadErrors forb (actual ++ [e]) rest

/-- Modelled from the spec: node insertion follows the "ensure" pattern —
inserting an already-present identity is a no-op. -/
def ensureNode [DecidableEq α] (g : List α) (x : α) : List α :=
  if x ∈ g then g else g ++ [x]

/-- The sequential commit loop of MakeGraph (lines 100-102): every loader
inserts its staged items into the graph. -/
def addAllToGraph [DecidableEq α] (loaders : List (LoaderSpec α)) : List α :=
  loaders.foldl (fun g l => (stagedItems l).foldl ensureNode g) []

/-- MakeGraph (lines 59-119) on a list of loader outcomes: classify the
fan-out errors; abort with the aggregated actual errors before any commit,
or commit all staged items and return the graph with no error. -/
def makeGraph [DecidableEq α] (loaders : List (LoaderSpec α)) :
    List α × List String × Option (List APIError) :=
  let errs := collectLoadErrors loaders
  let classified := classifyLoadErrors [] [] errs
  if classified.2 ≠ [] then ([], classified.1, some classified.2)
  else (addAllToGraph loaders, classified.1, none)

/-- The spec's genuine failures, stated independently of MakeGraph: loader
errors that are neither Forbidden nor a NotFound tolerated by a build-related
loader. -/
def genuineFailures (loaders : List (LoaderSpec α)) : List APIError :=
  loaders.filterMap (fun l =>
    match l.listResult with
    | .error (APIError.forbidden _) => none
    | .error APIError.notFound =>
        if l.tolerateNotFound then none else some APIError.notFound
    | .error e => some e
    | .ok _ => none)

/-- The fixed loader list of MakeGraph (lines 62-75), one outcome per loader;
only the bcLoader and the buildLoader tolerate NotFound. -/
def standardLoaders (svc sa sec rc pod bc bld is dc rt : Except APIError (List α)) :
    List (LoaderSpec α) :=
  [⟨svc, false⟩, ⟨sa, false⟩, ⟨sec, false⟩, ⟨rc, false⟩, ⟨pod, false⟩,
   ⟨bc, true⟩, ⟨bld, true⟩, ⟨is, false⟩, ⟨dc, false⟩, ⟨rt, false⟩]

/-- `createForbiddenMarkers` (lines 331-341): one warning marker per recorded
forbidden kind.  Map iteration is modelled in insertion order. -/
def createForbiddenMarkers (forbiddenResources : List String) : List Marker :=
  forbiddenResources.map (fun k =>
    { severity := MarkerSeverity.warning
      key := strCodes "Forbidden"
      nodeID := 0
      message := "Unable to list " ++ k ++ " resources.  Not all status relationships can be established."
      suggestion := "" })

/-! ### The temporal structure of MakeGraph (claim C3) -/

/-- An observable event of MakeGraph: a loader's Load returning, a loader's
AddToGraph call, or one of the edge-inference calls. -/
inductive GraphEvent where
  | load (i : Nat)
  | commit (i : Nat)
  | link (name : String)
  deriving DecidableEq

/-- The thirteen edge-inference calls of MakeGraph, in order (lines 104-116). -/
def edgeAdders : List String :=
  ["AddAllExposedPodTemplateSpecEdges", "AddAllExposedPodEdges",
   "AddAllManagedByRCPodEdges", "AddAllRequestedServiceAccountEdges",
   "AddAllMountableSecretEdges", "AddAllMountedSecretEdges",
   "AddAllInputOutputEdges", "AddAllBuildEdges", "AddAllTriggerEdges",
   "AddAllDeploymentEdges", "AddAllImageStreamRefEdges",
   "AddAllImageStreamImageRefEdges", "AddAllRouteEdges"]

/-- The event trace of MakeGraph: `parallel.Run` returns only after every
Load has returned (the barrier, modelled from the spec); then, unless actual
errors abort the run, each loader commits and the edge functions run. -/
def makeGraphTrace (loaders : List (LoaderSpec α)) : List GraphEvent :=
  (List.range loaders.length).map GraphEvent.load ++
    (if (classifyLoadErrors [] [] (collectLoadErrors loaders)).2 ≠ [] then []
     else (List.range loaders.length).map GraphEvent.commit ++
       edgeAdders.map GraphEvent.link)

/-- Event classifiers for the trace. -/
def isLoadEvent : GraphEvent → Bool
  | GraphEvent.load _ => true
  | _ => false

/-- Whether a trace event is an AddToGraph commit. -/
def isCommitEvent : GraphEvent → Bool
  | GraphEvent.commit _ => true
  | _ => false

/-- Whether a trace event is an edge-inference call. -/
def isLinkEvent : GraphEvent → Bool
  | GraphEvent.link _ => true
  | _ => false

/-! ### The coverage partition of Describe (lines 141-156) -/

/-- The five partition shapes, named after their graphview pass. -/
inductive PassKind where
  | serviceGroups
  | dcPipelines
  | bareRCs
  | imagePipelinesFromBuildConfigs
  | barePods
  deriving DecidableEq

/-- The order in which Describe runs the five partition passes. -/
def describePassOrder : List PassKind :=
  [PassKind.serviceGroups, PassKind.dcPipelines, PassKind.bareRCs,
   PassKind.imagePipelinesFromBuildConfigs, PassKind.barePods]

/-- A family of partition passes: each pass takes the current covered set and
returns its matched group views together with the set of node IDs it claims.
Modelled from the spec: the graphview pass functions are external
collaborators. -/
def PassFamily (V : Type) : Type := PassKind → Finset Nat → List V × Finset Nat

/-- The covered set after the service-group pass (line 143-144). -/
def coveredAfterServices (passes : PassFamily V) : Finset Nat :=
  (∅ : Finset Nat) ∪ (passes PassKind.serviceGroups ∅).2

/-- The covered set after the deployment-config-pipeline pass (lines 146-147). -/
def coveredAfterDCs (passes : PassFamily V) : Finset Nat :=
  coveredAfterServices passes ∪
    (passes PassKind.dcPipelines (coveredAfterServices passes)).2

/-- The covered set after the bare-replication-controller pass (lines 149-150). -/
def coveredAfterRCs (passes : PassFamily V) : Finset Nat :=
  coveredAfterDCs passes ∪ (passes PassKind.bareRCs (coveredAfterDCs passes)).2

/-- The covered set after the image-pipeline pass (lines 152-153). -/
def coveredAfterImages (passes : PassFamily V) : Finset Nat :=
  coveredAfterRCs passes ∪
    (passes PassKind.imagePipelinesFromBuildConfigs (coveredAfterRCs passes)).2

/-- The covered set after the bare-pod pass (lines 155-156). -/
def coveredAfterPods (passes : PassFamily V) : Finset Nat :=
  coveredAfterImages passes ∪ (passes PassKind.barePods (coveredAfterImages passes)).2

/-- Running a sequence of passes from a covered set, accumulating the claimed
node IDs by union, as Describe does with `coveredNodes.Insert`. -/
def runPasses (passes : PassFamily V) : List PassKind → Finset Nat → Finset Nat
  | [], covered => covered
  | k :: ks, covered => runPasses passes ks (covered ∪ (passes k covered).2)

/-- The partition phase of Describe: the five group-view lists and the final
covered set, produced by the five passes in source order. -/
def describePartition (passes : PassFamily V) :
    (List V × List V × List V × List V × List V) × Finset Nat :=
  let services := (passes PassKind.serviceGroups ∅).1
  let standaloneDCs := (passes PassKind.dcPipelines (coveredAfterServices passes)).1
  let standaloneRCs := (passes PassKind.bareRCs (coveredAfterDCs passes)).1
  let standaloneImages :=
    (passes PassKind.imagePipelinesFromBuildConfigs (coveredAfterRCs passes)).1
  let standalonePods := (passes PassKind.barePods (coveredAfterImages passes)).1
  ((services, standaloneDCs, standaloneRCs, standaloneImages, standalonePods),
    coveredAfterPods passes)

/-! ### The trailing summary decision table (Describe, lines 297-325) -/

/-- The `errors` phrase (lines 298-302). -/
def errorsPhrase (nErrors : Nat) : String :=
  if nErrors = 1 then "1 error"
  else if nErrors > 1 then toString nErrors ++ " errors" else ""

/-- The `warnings` phrase (lines 303-307). -/
def warningsPhrase (nWarnings : Nat) : String :=
  if nWarnings = 1 then "1 warning"
  else if nWarnings > 1 then toString nWarnings ++ " warnings" else ""

/-- The summary switch (lines 309-325), as the list of lines it prints, from
the suggest flag, the error/warning marker counts, the number of error markers
carrying a suggestion, and the sizes of the services, standalone-DC and
standalone-image group lists. -/
def statusSummaryLines (suggest : Bool) (nErrors nWarnings errorSuggestions
    nServices nStandaloneDCs nStandaloneImages : Nat) : List String :=
  if suggest = false ∧ nErrors > 0 ∧ nWarnings > 0 then
    [errorsPhrase nErrors ++ " and " ++ warningsPhrase nWarnings ++
      " identified, use \x27oc status -v\x27 to see details."]
  else if suggest = false ∧ nErrors > 0 ∧ errorSuggestions > 0 then
    [errorsPhrase nErrors ++ " identified, use \x27oc status -v\x27 to see details."]
  else if suggest = false ∧ nWarnings > 0 then
    [warningsPhrase nWarnings ++ " identified, use \x27oc status -v\x27 to see details."]
  else if nServices = 0 ∧ nStandaloneDCs = 0 ∧ nStandaloneImages = 0 then
    ["You have no services, deployment configs, or build configs.",
     "Run \x27oc new-app\x27 to create an application."]
  else
    ["View details with \x27oc describe <resource>/<name>\x27 or list everything with \x27oc get all\x27."]

/-! ### The boring-pod filter (filterBoringPods, lines 1069-1091) -/

/-- Pod phase, as far as the filter looks at it. -/
inductive PodPhase where
  | pending
  | running
  | succeeded
  | failed
  | unknown
  deriving DecidableEq

/-- The parts of a kapi.Pod the filter reads: its label keys, its annotation
keys and its phase. -/
structure KPod where
  labels : List String
  annotations : List String
  phase : PodPhase
  deriving DecidableEq

/-- `deployapi.DeployerPodForDeploymentLabel`. -/
def deployerPodForDeploymentLabel : String := "openshift.io/deployer-pod-for.name"

/-- `buildapi.BuildAnnotation`. -/
def buildAnnotationKey : String := "openshift.io/build.name"

/-- A graphview.Pod: its payload object, `some` exactly when the node's
runtime object is a *kapi.Pod (the type assertion of line 1073). -/
structure GraphviewPod where
  object : Option KPod
  deriving DecidableEq

/-- `filterBoringPods` (lines 1069-1091): keep a pod only when its payload is
a pod object that is not a deployer pod, not a builder pod and not finished.
`kapi.ObjectMetaFor` on a typed pod cannot fail, so the error path is not
modelled. -/
def filterBoringPods (pods : List GraphviewPod) : List GraphviewPod :=
  pods.filter (fun pod =>
    match pod.object with
    | none => false
    | some actualPod =>
      let isDeployerPod := actualPod.labels.contains deployerPodForDeploymentLabel
      let isBuilderPod := actualPod.annotations.contains buildAnnotationKey
      let isFinished := actualPod.phase = PodPhase.succeeded ∨
        actualPod.phase = PodPhase.failed
      !(isDeployerPod || isBuilderPod || decide isFinished))

/-- The pods the claim says survive the filter: payload pods with no
deployer-pod-for label, no build annotation, and a non-terminal phase. -/
def claimKeepsPod (pod : GraphviewPod) : Bool :=
  match pod.object with
  | none => true
  | some actualPod =>
    (!actualPod.labels.contains deployerPodForDeploymentLabel) &&
    (!actualPod.annotations.contains buildAnnotationKey) &&
    !(actualPod.phase = PodPhase.succeeded) && !(actualPod.phase = PodPhase.failed)

/-! ### Service port summarization (lines 1028-1067) -/

/-- The service types the port summarizer distinguishes. -/
inductive ServiceType where
  | clusterIP
  | nodePort
  | loadBalancer
  deriving DecidableEq

/-- intstr.IntOrString: the target-port field of a service port. -/
inductive IntOrString where
  | int (i : Int)
  | str (s : String)
  deriving DecidableEq

/-- `IntOrString.String()`: the decimal rendering of the int, or the string. -/
def intOrStringText : IntOrString → String
  | IntOrString.int i => toString i
  | IntOrString.str s => s

/-- `IntOrString.IntVal`: the int value, zero for the string kind. -/
def intOrStringIntVal : IntOrString → Int
  | IntOrString.int i => i
  | IntOrString.str _ => 0

/-- A kapi.ServicePort, as far as the summarizer reads it. -/
structure ServicePort where
  port : Int
  targetPort : IntOrString
  nodePort : Int
  deriving DecidableEq

/-- A kapi.ServiceSpec, as far as the summarizer reads it. -/
structure ServiceSpec where
  svcType : ServiceType
  clusterIP : String
  ports : List ServicePort
  deriving DecidableEq

/-- `kapi.ClusterIPNone`. -/
def clusterIPNone : String := "None"

/-- `portOrNodePort` (lines 1028-1037): the service port for non-NodePort
services; for NodePort services the allocated node port, or the initializing
placeholder while it is 0. -/
def portOrNodePort (spec : ServiceSpec) (port : ServicePort) : String :=
  if spec.svcType ≠ ServiceType.nodePort then toString port.port
  else if port.nodePort = 0 then "<initializing>"
  else toString port.nodePort

/-- `describeServicePorts` (lines 1039-1067): the three arities rendered
distinctly, with the NodePort and headless special cases. -/
def describeServicePorts (spec : ServiceSpec) : String :=
  match spec.ports with
  | [] => " no ports"
  | [p] =>
    let port := portOrNodePort spec p
    if intOrStringText p.targetPort = "0" ∨ spec.clusterIP = clusterIPNone ∨
        port = intOrStringText p.targetPort then
      ":" ++ port
    else
      ":" ++ port ++ " -> " ++ intOrStringText p.targetPort
  | _ =>
    let pairs := spec.ports.map (fun port =>
      let externalPort := portOrNodePort spec port
      if intOrStringText port.targetPort = "0" ∨ spec.clusterIP = clusterIPNone then
        externalPort
      else if port.port = intOrStringIntVal port.targetPort then
        intOrStringText port.targetPort
      else
        externalPort ++ "->" ++ intOrStringText port.targetPort)
    " ports " ++ String.intercalate ", " pairs

/-! ### Build timestamps and build detail (lines 733-867) -/

/-- Build phases (buildapi.BuildPhase). -/
inductive BuildPhase where
  | new
  | pending
  | running
  | complete
  | failed
  | error
  | cancelled
  deriving DecidableEq

/-- The Go name of a build phase, for the default branch of
describeBuildPhase. -/
def buildPhaseText : BuildPhase → String
  | BuildPhase.new => "New"
  | BuildPhase.pending => "Pending"
  | BuildPhase.running => "Running"
  | BuildPhase.complete => "Complete"
  | BuildPhase.failed => "Failed"
  | BuildPhase.error => "Error"
  | BuildPhase.cancelled => "Cancelled"

/-- A git source revision (buildapi.SourceRevision with its Git part). -/
structure GitRev where
  commit : String
  message : String
  authorName : String
  authorEmail : String
  committerName : String
  committerEmail : String
  deriving DecidableEq

/-- A buildapi.Build, as far as these functions read it.  Times are Nat with
0 as the zero time; the pointer-valued status timestamps are Options, `none`
modelling a nil pointer (whose `IsZero` is true). -/
structure KBuild where
  name : String
  creationTimestamp : Nat
  statusPhase : BuildPhase
  completionTimestamp : Option Nat
  startTimestamp : Option Nat
  outputTo : Option String
  revision : Option GitRev
  deriving DecidableEq

/-- `(*unversioned.Time).IsZero`: true for a nil pointer or the zero time. -/
def isZeroTime : Option Nat → Bool
  | none => true
  | some t => t = 0

/-- `buildTimestamp` (lines 856-867): completion time if non-zero, else start
time if non-zero, else creation time; the zero time for a nil build. -/
def buildTimestamp : Option KBuild → Nat
  | none => 0
  | some build =>
    if !isZeroTime build.completionTimestamp then build.completionTimestamp.getD 0
    else if !isZeroTime build.startTimestamp then build.startTimestamp.getD 0
    else build.creationTimestamp

/-- Go `strings.ToLower`, as a character-wise map. -/
def goToLower (s : String) : String := String.mk (s.data.map Char.toLower)

/-- Modelled from the spec: `formatRelativeTime` (defined elsewhere in the
describe package) turns a timestamp into a coarse "N units" phrase. -/
def formatRelativeTime (t : Nat) : String := toString t ++ " seconds"

/-- Go `strconv.Atoi` on a build-name suffix, modelled for unsigned decimal
numerals: all-digit non-empty strings parse, anything else is an error. -/
def goAtoi (s : String) : Option Nat :=
  if s.data ≠ [] ∧ s.data.all (fun c => 48 ≤ c.toNat ∧ c.toNat ≤ 57) then
    some (s.data.foldl (fun n c => 10 * n + (c.toNat - 48)) 0)
  else none

/-- `describeSourceControlUser` (lines 846-854). -/
def describeSourceControlUser (name email : String) : String :=
  if name.data.length = 0 then email
  else if email.data.length = 0 then name
  else name ++ " <" ++ email ++ ">"

/-- `describeSourceRevision` (lines 823-844), for the git case. -/
def describeSourceRevision : Option GitRev → String
  | none => ""
  | some git =>
    let author := describeSourceControlUser git.authorName git.authorEmail
    let author :=
      if author.data.length = 0 then
        describeSourceControlUser git.committerName git.committerEmail
      else author
    let author := if author.data.length ≠ 0 then " (" ++ author ++ ")" else author
    let commit :=
      if git.commit.data.length > 7 then String.mk (git.commit.data.take 7)
      else git.commit
    commit ++ ": " ++ git.message ++ author

/-- `describeBuildPhase` (lines 779-821). -/
def describeBuildPhase (build : KBuild) (t : Option Nat) (parentName : String)
    (pushTargetResolved : Bool) : String :=
  let imageStreamFailure :=
    if build.outputTo.isSome && !pushTargetResolved then " (can\x27t push to image)" else ""
  let t := match t with
    | none => buildTimestamp (some build)
    | some v => v
  let time := if t = 0 then "<unknown>" else goToLower (formatRelativeTime t)
  let buildIdentification := "build/" ++ build.name
  let parentDash := parentName ++ "-"
  let buildIdentification :=
    if parentDash.data.isPrefixOf build.name.data then
      let suffix := String.mk (build.name.data.drop parentDash.data.length)
      match goAtoi suffix with
      | some buildNumber => "build #" ++ toString buildNumber
      | none => buildIdentification
    else buildIdentification
  let revision := describeSourceRevision build.revision
  let revision := if revision.data.length ≠ 0 then " - " ++ revision else revision
  match build.statusPhase with
  | BuildPhase.complete =>
    buildIdentification ++ " succeeded " ++ time ++ " ago" ++ revision ++ imageStreamFailure
  | BuildPhase.error =>
    buildIdentification ++ " stopped with an error " ++ time ++ " ago" ++ revision ++
      imageStreamFailure
  | BuildPhase.failed =>
    buildIdentification ++ " failed " ++ time ++ " ago" ++ revision ++ imageStreamFailure
  | phase =>
    buildIdentification ++ " " ++ goToLower (buildPhaseText phase) ++ " for " ++ time ++
      revision ++ imageStreamFailure

/-- `describeAdditionalBuildDetail` (lines 733-777).  The first argument is
the BuildConfigNode, reduced to its config name (`none` models a nil node);
the next two are the last successful and last unsuccessful BuildNodes. -/
def describeAdditionalBuildDetail (build : Option String)
    (lastSuccessfulBuild lastUnsuccessfulBuild : Option KBuild)
    (activeBuilds : List KBuild) (pushTargetResolved includeSuccess : Bool) :
    List String :=
  match build with
  | none => []
  | some bcName =>
    let passTime := match lastSuccessfulBuild with
      | some b => buildTimestamp (some b)
      | none => 0
    let failTime := match lastUnsuccessfulBuild with
      | some b => buildTimestamp (some b)
      | none => 0
    let lastTime := if passTime > failTime then passTime else failTime
    let out :=
      match lastSuccessfulBuild with
      | some b =>
        if includeSuccess || activeBuilds.length > 0 then
          [describeBuildPhase b (some passTime) bcName pushTargetResolved]
        else []
      | none => []
    let out := out ++
      (if passTime < failTime then
        match lastUnsuccessfulBuild with
        | some b => [describeBuildPhase b (some failTime) bcName pushTargetResolved]
        | none => []
      else [])
    let out :=
      match activeBuilds with
      | [] => out
      | firstActive :: _ =>
        let activeOut := activeBuilds.map
          (fun b => describeBuildPhase b none bcName pushTargetResolved)
        if buildTimestamp (some firstActive) < lastTime then out ++ activeOut
        else activeOut ++ out
    if out.length = 0 ∧ lastSuccessfulBuild = none then ["not built yet"] else out

/-! ## Helper lemmas -/

theorem lexLt_irrefl : ∀ l : List Nat, lexLt l l = false
  | [] => rfl
  | a :: as => by
    simp only [lexLt, lt_irrefl, if_false]
    exact lexLt_irrefl as

theorem lexLt_trans : ∀ {a b c : List Nat},
    lexLt a b = true → lexLt b c = true → lexLt a c = true
  | [], _ :: _, _ :: _, _, _ => rfl
  | x :: xs, y :: ys, z :: zs, h1, h2 => by
    simp only [lexLt] at h1 h2 ⊢
    split_ifs at h1 h2 ⊢ with hxy hyx hyz hzy hxz hzx <;> try rfl
    all_goals first
      | omega
      | (exact lexLt_trans h1 h2)

theorem lexLt_eq_of_both_false : ∀ {a b : List Nat},
    lexLt a b = false → lexLt b a = false → a = b
  | [], [], _, _ => rfl
  | [], _ :: _, h1, _ => by simp [lexLt] at h1
  | _ :: _, [], _, h2 => by simp [lexLt] at h2
  | x :: xs, y :: ys, h1, h2 => by
    simp only [lexLt] at h1 h2
    by_cases hxy : x < y
    · simp [hxy] at h1
    · by_cases hyx : y < x
      · simp [hyx] at h2
      · have hx : x = y := by omega
        subst hx
        simp only [Nat.lt_irrefl, if_false] at h1 h2
        rw [lexLt_eq_of_both_false h1 h2]

theorem mem_orderedInsertBy (lt : α → α → Bool) (a x : α) :
    ∀ l : List α, x ∈ orderedInsertBy lt a l ↔ x = a ∨ x ∈ l
  | [] => by simp [orderedInsertBy]
  | b :: l => by
    simp only [orderedInsertBy]
    split_ifs with h
    · simp only [List.mem_cons, mem_orderedInsertBy lt a x l]
      tauto
    · simp only [List.mem_cons]

theorem perm_orderedInsertBy (lt : α → α → Bool) (a : α) :
    ∀ l : List α, (orderedInsertBy lt a l).Perm (a :: l)
  | [] => List.Perm.refl _
  | b :: l => by
    simp only [orderedInsertBy]
    split_ifs with h
    · exact ((perm_orderedInsertBy lt a l).cons b).trans (List.Perm.swap a b l)
    · exact List.Perm.refl _

theorem perm_insertionSortBy (lt : α → α → Bool) :
    ∀ l : List α, (insertionSortBy lt l).Perm l
  | [] => List.Perm.refl _
  | a :: l =>
    (perm_orderedInsertBy lt a (insertionSortBy lt l)).trans
      ((perm_insertionSortBy lt l).cons a)

theorem filter_orderedInsertBy_pos (lt : α → α → Bool) (p : α → Bool) (a : α)
    (ha : p a = true) :
    ∀ l : List α, (∀ b ∈ l, p b = true → lt b a = false) →
      (orderedInsertBy lt a l).filter p = a :: l.filter p
  | [], _ => by simp [orderedInsertBy, ha]
  | b :: l, h => by
    simp only [orderedInsertBy]
    split_ifs with hba
    · have hpb : p b = false := by
        cases hpb : p b with
        | true => exact absurd (h b (by simp) hpb) (by simp [hba])
        | false => rfl
      rw [List.filter_cons_of_neg (by simp [hpb]),
        filter_orderedInsertBy_pos lt p a ha l (fun c hc => h c (by simp [hc])),
        List.filter_cons_of_neg (by simp [hpb])]
    · rw [List.filter_cons_of_pos (by simp [ha])]

theorem filter_orderedInsertBy_neg (lt : α → α → Bool) (p : α → Bool) (a : α)
    (ha : p a = false) :
    ∀ l : List α, (orderedInsertBy lt a l).filter p = l.filter p
  | [] => by simp [orderedInsertBy, ha]
  | b :: l => by
    simp only [orderedInsertBy]
    split_ifs with hba
    · cases hpb : p b with
      | true =>
        rw [List.filter_cons_of_pos (by simp [hpb]),
          filter_orderedInsertBy_neg lt p a ha l,
          List.filter_cons_of_pos (by simp [hpb])]
      | false =>
        rw [List.filter_cons_of_neg (by simp [hpb]),
          filter_orderedInsertBy_neg lt p a ha l,
          List.filter_cons_of_neg (by simp [hpb])]
    · rw [List.filter_cons_of_neg (by simp [ha])]

theorem filter_insertionSortBy_stable (lt : α → α → Bool) (p : α → Bool)
    (hp : ∀ x y, p x = true → p y = true → lt x y = false) :
    ∀ l : List α, (insertionSortBy lt l).filter p = l.filter p
  | [] => rfl
  | a :: l => by
    simp only [insertionSortBy]
    cases ha : p a with
    | true =>
      rw [filter_orderedInsertBy_pos lt p a ha _ (fun b _ hb => hp b a hb ha),
        filter_insertionSortBy_stable lt p hp l, List.filter_cons_of_pos (by simp [ha])]
    | false =>
      rw [filter_orderedInsertBy_neg lt p a ha,
        filter_insertionSortBy_stable lt p hp l, List.filter_cons_of_neg (by simp [ha])]

theorem pairwise_orderedInsertBy (lt : α → α → Bool)
    (hasymm : ∀ x y, lt x y = true → lt y x = false)
    (hneg : ∀ x y z, lt x y = false → lt y z = false → lt x z = false) (a : α) :
    ∀ l : List α, List.Pairwise (fun x y => lt y x = false) l →
      List.Pairwise (fun x y => lt y x = false) (orderedInsertBy lt a l)
  | [], _ => by simp [orderedInsertBy]
  | b :: l, h => by
    rcases List.pairwise_cons.mp h with ⟨hb, hl⟩
    simp only [orderedInsertBy]
    cases hba : lt b a with
    | true =>
      simp only [if_true]
      refine List.pairwise_cons.mpr ⟨?_, pairwise_orderedInsertBy lt hasymm hneg a l hl⟩
      intro y hy
      rcases (mem_orderedInsertBy lt a y l).mp hy with rfl | hyl
      · exact hasymm b y hba
      · exact hb y hyl
    | false =>
      simp only [Bool.false_eq_true, if_false]
      refine List.pairwise_cons.mpr ⟨?_, h⟩
      intro y hy
      rcases List.mem_cons.mp hy with rfl | hyl
      · exact hba
      · exact hneg y b a (hb y hyl) hba

theorem pairwise_insertionSortBy (lt : α → α → Bool)
    (hasymm : ∀ x y, lt x y = true → lt y x = false)
    (hneg : ∀ x y z, lt x y = false → lt y z = false → lt x z = false) :
    ∀ l : List α, List.Pairwise (fun x y => lt y x = false) (insertionSortBy lt l)
  | [] => List.Pairwise.nil
  | a :: l =>
    pairwise_orderedInsertBy lt hasymm hneg a _ (pairwise_insertionSortBy lt hasymm hneg l)

/-! ## Claim C4: marker ordering -/

/-- C4: after aggregation and filtering the markers are ordered by the two
stable sorts applied in sequence — `sort.Stable(ByKey)`, then
`sort.Stable(ByNodeID)` — so the result is a permutation of the input that is
ordered by related-node identity, and any two markers sharing both key and
related node keep their original analyzer-emission order: the subsequence of
markers with any fixed key and node is unchanged. -/
theorem marker_sort_two_stable_keys (l : List Marker) (k : List Nat) (n : Nat) :
    (sortMarkers l).Perm l ∧
    List.Pairwise (fun a b => byNodeIDLess b a = false) (sortMarkers l) ∧
    (sortMarkers l).filter (fun m => decide (m.key = k ∧ m.nodeID = n)) =
      l.filter (fun m => decide (m.key = k ∧ m.nodeID = n)) := by
  refine ⟨?_, ?_, ?_⟩
  · exact (perm_insertionSortBy _ _).trans (perm_insertionSortBy _ _)
  · exact pairwise_insertionSortBy byNodeIDLess
      (fun x y h => by simp only [byNodeIDLess, decide_eq_true_eq] at h
                       simp only [byNodeIDLess, decide_eq_false_iff_not]
                       omega)
      (fun x y z h1 h2 => by
        simp only [byNodeIDLess, decide_eq_false_iff_not] at h1 h2
        simp only [byNodeIDLess, decide_eq_false_iff_not]
        omega) _
  · rw [sortMarkers,
      filter_insertionSortBy_stable byNodeIDLess _
        (fun x y hx hy => by
          simp only [decide_eq_true_eq] at hx hy
          simp only [byNodeIDLess, decide_eq_false_iff_not]
          omega),
      filter_insertionSortBy_stable byKeyLess _
        (fun x y hx hy => by
          simp only [decide_eq_true_eq] at hx hy
          simp only [byKeyLess, hx.1, hy.1]
          exact lexLt_irrefl k)]

/-! ## Claim C6: the exposed-route comparator -/

theorem exposedRoutesLess_eq_routeKeyLess (a b : List Nat) :
    exposedRoutesLess a b = routeKeyLess a b := by
  simp only [exposedRoutesLess, routeKeyLess, routeRank, routeSpaceLen, routeBody,
    routeTailLess]
  cases hA : httpsScheme.isPrefixOf a <;> cases hB : httpsScheme.isPrefixOf b
  · cases hA2 : httpScheme.isPrefixOf a <;> cases hB2 : httpScheme.isPrefixOf b <;>
      simp [hA, hB, hA2, hB2] <;> try (split_ifs <;> first | rfl | omega | simp_all)
  all_goals simp [hA, hB] <;> try (split_ifs <;> first | rfl | omega | simp_all)

theorem routeKeyLess_eq_true_iff (a b : List Nat) :
    routeKeyLess a b = true ↔
      routeRank a < routeRank b ∨
        (routeRank a = routeRank b ∧
          (routeSpaceLen a < routeSpaceLen b ∨
            (routeSpaceLen a = routeSpaceLen b ∧
              lexLt (routeBody a) (routeBody b) = true))) := by
  unfold routeKeyLess
  split_ifs with h1 h2 h3 h4
  · simp [h1]
  · simp [h1, h2]
    omega
  · simp
    omega
  · simp [h4]
    omega
  · constructor
    · intro h
      right
      exact ⟨by omega, Or.inr ⟨by omega, h⟩⟩
    · rintro (h | ⟨-, h | ⟨-, h⟩⟩) <;> first | omega | exact h

theorem eq_of_isPrefixOf_drop {p a b : List Nat} (ha : p.isPrefixOf a)
    (hb : p.isPrefixOf b) (h : a.drop p.length = b.drop p.length) : a = b := by
  rw [List.isPrefixOf_iff_prefix] at ha hb
  obtain ⟨ta, rfl⟩ := ha
  obtain ⟨tb, rfl⟩ := hb
  simp only [List.drop_left] at h
  rw [h]

theorem eq_of_routeRank_routeBody_eq {a b : List Nat}
    (hr : routeRank a = routeRank b) (hb : routeBody a = routeBody b) : a = b := by
  unfold routeRank at hr
  unfold routeBody at hb
  by_cases hA : httpsScheme.isPrefixOf a
  · by_cases hB : httpsScheme.isPrefixOf b
    · rw [if_pos hA, if_pos hB] at hb
      have h8 : (8 : Nat) = httpsScheme.length := by decide
      rw [h8] at hb
      exact eq_of_isPrefixOf_drop hA hB hb
    · rw [if_pos hA, if_neg hB] at hr
      by_cases hB2 : httpScheme.isPrefixOf b
      · rw [if_pos hB2] at hr
        exact absurd hr (by omega)
      · rw [if_neg hB2] at hr
        exact absurd hr (by omega)
  · by_cases hB : httpsScheme.isPrefixOf b
    · rw [if_neg hA, if_pos hB] at hr
      by_cases hA2 : httpScheme.isPrefixOf a
      · rw [if_pos hA2] at hr
        exact absurd hr (by omega)
      · rw [if_neg hA2] at hr
        exact absurd hr (by omega)
    · rw [if_neg hA, if_neg hB] at hr
      rw [if_neg hA, if_neg hB] at hb
      by_cases hA2 : httpScheme.isPrefixOf a
      · by_cases hB2 : httpScheme.isPrefixOf b
        · rw [if_pos hA2, if_pos hB2] at hb
          have h7 : (7 : Nat) = httpScheme.length := by decide
          rw [h7] at hb
          exact eq_of_isPrefixOf_drop hA2 hB2 hb
        · rw [if_pos hA2, if_neg hB2] at hr
          exact absurd hr (by omega)
      · by_cases hB2 : httpScheme.isPrefixOf b
        · rw [if_neg hA2, if_pos hB2] at hr
          exact absurd hr (by omega)
        · rwa [if_neg hA2, if_neg hB2] at hb

theorem routeKeyLess_trans {a b c : List Nat} (h1 : routeKeyLess a b = true)
    (h2 : routeKeyLess b c = true) : routeKeyLess a c = true := by
  rw [routeKeyLess_eq_true_iff] at h1 h2 ⊢
  rcases h1 with h1 | ⟨hr1, h1⟩
  · rcases h2 with h2 | ⟨hr2, -⟩
    · left; omega
    · left; omega
  · rcases h2 with h2 | ⟨hr2, h2⟩
    · left; omega
    · right
      refine ⟨by omega, ?_⟩
      rcases h1 with h1 | ⟨hs1, h1⟩
      · rcases h2 with h2 | ⟨hs2, -⟩
        · left; omega
        · left; omega
      · rcases h2 with h2 | ⟨hs2, h2⟩
        · left; omega
        · exact Or.inr ⟨by omega, lexLt_trans h1 h2⟩

theorem routeKeyLess_trichotomy (a b : List Nat)
    (h1 : routeKeyLess a b = false) (h2 : routeKeyLess b a = false) : a = b := by
  have g1 : ¬ routeKeyLess a b = true := by simp [h1]
  have g2 : ¬ routeKeyLess b a = true := by simp [h2]
  rw [routeKeyLess_eq_true_iff] at g1 g2
  push_neg at g1 g2
  have hr : routeRank a = routeRank b := by omega
  have hs : routeSpaceLen a = routeSpaceLen b := by
    have := g1.2 hr
    have := g2.2 hr.symm
    omega
  have hl1 : lexLt (routeBody a) (routeBody b) = false := by
    have := (g1.2 hr).2 hs
    simpa using this
  have hl2 : lexLt (routeBody b) (routeBody a) = false := by
    have := (g2.2 hr.symm).2 hs.symm
    simpa using this
  exact eq_of_routeRank_routeBody_eq hr (lexLt_eq_of_both_false hl1 hl2)

/-- C6 (amended): `exposedRoutes.Less` is a strict total order equal to a
three-level tuple comparison — scheme priority, then, for two strings sharing
an http/https scheme, the length of the stripped string up to the first space
and then lexicographic on the stripped string; two scheme-less strings
compare directly lexicographically, with no length level.  Sorting the
claimed example yields the claimed order. -/
theorem exposedRoutes_strict_total_order :
    (∀ a b : List Nat, exposedRoutesLess a b = routeKeyLess a b) ∧
    (∀ a b c : List Nat, exposedRoutesLess a b = true →
      exposedRoutesLess b c = true → exposedRoutesLess a c = true) ∧
    (∀ a b : List Nat,
      (exposedRoutesLess a b = true ∧ exposedRoutesLess b a = false ∧ a ≠ b) ∨
      (exposedRoutesLess b a = true ∧ exposedRoutesLess a b = false ∧ a ≠ b) ∨
      (a = b ∧ exposedRoutesLess a b = false ∧ exposedRoutesLess b a = false)) ∧
    insertionSortBy exposedRoutesLess
        [strCodes "http://a", strCodes "https://z", strCodes "https://a"] =
      [strCodes "https://a", strCodes "https://z", strCodes "http://a"] := by
  have hirr : ∀ a : List Nat, exposedRoutesLess a a = false := by
    intro a
    rw [exposedRoutesLess_eq_routeKeyLess, routeKeyLess]
    split_ifs <;> first | omega | exact lexLt_irrefl _
  refine ⟨exposedRoutesLess_eq_routeKeyLess, ?_, ?_, by decide⟩
  · intro a b c h1 h2
    rw [exposedRoutesLess_eq_routeKeyLess] at h1 h2 ⊢
    exact routeKeyLess_trans h1 h2
  · intro a b
    cases hab : exposedRoutesLess a b with
    | true =>
      refine Or.inl ⟨rfl, ?_, ?_⟩
      · cases hba : exposedRoutesLess b a with
        | false => rfl
        | true =>
          have := routeKeyLess_trans (exposedRoutesLess_eq_routeKeyLess a b ▸ hab)
            (exposedRoutesLess_eq_routeKeyLess b a ▸ hba)
          rw [← exposedRoutesLess_eq_routeKeyLess, hirr a] at this
          exact absurd this (by simp)
      · rintro rfl
        rw [hirr a] at hab
        exact absurd hab (by simp)
    | false =>
      cases hba : exposedRoutesLess b a with
      | true =>
        refine Or.inr (Or.inl ⟨rfl, rfl, ?_⟩)
        rintro rfl
        rw [hirr a] at hba
        exact absurd hba (by simp)
      | false =>
        refine Or.inr (Or.inr ⟨?_, rfl, rfl⟩)
        exact routeKeyLess_trichotomy a b
          (exposedRoutesLess_eq_routeKeyLess a b ▸ hab)
          (exposedRoutesLess_eq_routeKeyLess b a ▸ hba)

/-- C6 counterexample: for the scheme-less strings "bb c" and "z" the code
comparator answers by raw lexicographic order ("bb c" first), while the
spec's three-level tuple — which compares the length up to the first space
first — puts "z" first; the comparator is not equal to the spec's tuple
comparison. -/
theorem exposedRoutes_spec_tuple_counterexample :
    exposedRoutesLess (strCodes "bb c") (strCodes "z") = true ∧
    specClaimedRouteLess (strCodes "bb c") (strCodes "z") = false ∧
    specClaimedRouteLess (strCodes "z") (strCodes "bb c") = true := by decide

/-- Witness for C6: the transitivity part applied at concrete routes. -/
theorem exposedRoutes_strict_total_order_witness :
    exposedRoutesLess (strCodes "https://a") (strCodes "https://z") = true ∧
    exposedRoutesLess (strCodes "https://z") (strCodes "http://a") = true ∧
    exposedRoutesLess (strCodes "https://a") (strCodes "http://a") = true :=
  ⟨by decide, by decide,
    exposedRoutes_strict_total_order.2.1 (strCodes "https://a") (strCodes "https://z")
      (strCodes "http://a") (by decide) (by decide)⟩

/-! ## Claim C5: the trailing summary decision table -/

/-- C5 counterexample: with 2 error markers none of which carries a
suggestion, 0 warning markers and suggest mode off, the code prints the
generic guidance line, not "2 errors identified, use 'oc status -v' to see
details." — the claimed particular omits the suggestion-availability
condition of the second branch. -/
theorem status_summary_counterexample :
    statusSummaryLines false 2 0 0 1 0 0 =
      ["View details with \x27oc describe <resource>/<name>\x27 or list everything with \x27oc get all\x27."] ∧
    statusSummaryLines false 2 0 0 1 0 0 ≠
      ["2 errors identified, use \x27oc status -v\x27 to see details."] := by
  constructor
  · decide
  · decide

/-- C5 (amended): the summary line follows the exact branch priority — both
counts non-zero and suggest off gives the combined summary; errors with at
least one suggestion available and suggest off gives the error-only summary;
warnings only and suggest off gives the warning-only summary; no services,
deployment-config pipelines or image groups gives the "no resources"
guidance; otherwise the generic guidance.  In particular 2 error markers with
at least one suggestion available, 0 warnings, suggest off gives exactly
"2 errors identified, use 'oc status -v' to see details.". -/
theorem status_summary_decision_table :
    (∀ e w es sv d i : Nat, 0 < e → 0 < w →
      statusSummaryLines false e w es sv d i =
        [errorsPhrase e ++ " and " ++ warningsPhrase w ++
          " identified, use \x27oc status -v\x27 to see details."]) ∧
    (∀ e es sv d i : Nat, 0 < e → 0 < es →
      statusSummaryLines false e 0 es sv d i =
        [errorsPhrase e ++ " identified, use \x27oc status -v\x27 to see details."]) ∧
    (∀ w es sv d i : Nat, 0 < w →
      statusSummaryLines false 0 w es sv d i =
        [warningsPhrase w ++ " identified, use \x27oc status -v\x27 to see details."]) ∧
    (∀ (s : Bool) (es : Nat),
      statusSummaryLines s 0 0 es 0 0 0 =
        ["You have no services, deployment configs, or build configs.",
         "Run \x27oc new-app\x27 to create an application."]) ∧
    (∀ e w es : Nat,
      statusSummaryLines true e w es 0 0 0 =
        ["You have no services, deployment configs, or build configs.",
         "Run \x27oc new-app\x27 to create an application."]) ∧
    (∀ es sv d i : Nat, 0 < sv →
      statusSummaryLines false 0 0 es sv d i =
        ["View details with \x27oc describe <resource>/<name>\x27 or list everything with \x27oc get all\x27."]) ∧
    (∀ es sv d i : Nat, 0 < es →
      statusSummaryLines false 2 0 es sv d i =
        ["2 errors identified, use \x27oc status -v\x27 to see details."]) := by
  refine ⟨?_, ?_, ?_, ?_, ?_, ?_, ?_⟩
  · intro e w es sv d i he hw
    unfold statusSummaryLines
    rw [if_pos ⟨rfl, he, hw⟩]
  · intro e es sv d i he hes
    unfold statusSummaryLines
    rw [if_neg (by simp), if_pos ⟨rfl, he, hes⟩]
  · intro w es sv d i hw
    unfold statusSummaryLines
    rw [if_neg (by simp), if_neg (by simp), if_pos ⟨rfl, hw⟩]
  · intro s es
    unfold statusSummaryLines
    rw [if_neg (by simp), if_neg (by simp), if_neg (by simp), if_pos ⟨rfl, rfl, rfl⟩]
  · intro e w es
    unfold statusSummaryLines
    rw [if_neg (by simp), if_neg (by simp), if_neg (by simp), if_pos ⟨rfl, rfl, rfl⟩]
  · intro es sv d i hsv
    unfold statusSummaryLines
    rw [if_neg (by simp), if_neg (by simp), if_neg (by simp), if_neg (by omega)]
  · intro es sv d i hes
    unfold statusSummaryLines
    rw [if_neg (by simp), if_pos ⟨rfl, by omega, hes⟩]
    decide

/-- Witness for C5: the combined-summary branch at 2 errors and 1 warning,
and the amended particular at one available suggestion. -/
theorem status_summary_decision_table_witness :
    statusSummaryLines false 2 1 0 0 0 0 =
      ["2 errors and 1 warning identified, use \x27oc status -v\x27 to see details."] ∧
    statusSummaryLines false 2 0 1 0 0 0 =
      ["2 errors identified, use \x27oc status -v\x27 to see details."] :=
  ⟨by rw [status_summary_decision_table.1 2 1 0 0 0 0 (by decide) (by decide)]; decide,
   status_summary_decision_table.2.2.2.2.2.2 1 0 0 0 (by decide)⟩

/-! ## Claim C7: the boring-pod filter -/

/-- C7: `filterBoringPods` keeps exactly the standalone pods (in their
original order: the result is a sublist) whose payload pod has no
deployer-pod-for label, no build annotation, and is not in the Succeeded or
Failed phase — provided every standalone pod carries a pod payload, which
the graph construction guarantees. -/
theorem filterBoringPods_keeps_interesting_pods (pods : List GraphviewPod) :
    ((∀ p ∈ pods, p.object.isSome = true) →
      filterBoringPods pods = pods.filter claimKeepsPod) ∧
    (filterBoringPods pods).Sublist pods := by
  constructor
  · intro h
    unfold filterBoringPods
    refine List.filter_congr ?_
    intro p hp
    have hsome := h p hp
    match hobj : p.object with
    | none => simp [hobj] at hsome
    | some actual =>
      rcases actual with ⟨labs, anns, ph⟩
      simp only [hobj, claimKeepsPod]
      cases hd : labs.contains deployerPodForDeploymentLabel <;>
        cases hb : anns.contains buildAnnotationKey <;>
          cases ph <;> simp [hd, hb]
  · exact List.filter_sublist pods

/-- Witness for C7: a running plain pod survives; a deployer pod, a builder
pod, a succeeded pod and a failed pod are dropped. -/
theorem filterBoringPods_keeps_interesting_pods_witness :
    filterBoringPods
        [⟨some ⟨[], [], PodPhase.running⟩⟩,
         ⟨some ⟨["openshift.io/deployer-pod-for.name"], [], PodPhase.running⟩⟩,
         ⟨some ⟨[], ["openshift.io/build.name"], PodPhase.pending⟩⟩,
         ⟨some ⟨[], [], PodPhase.succeeded⟩⟩,
         ⟨some ⟨[], [], PodPhase.failed⟩⟩] =
      [⟨some ⟨[], [], PodPhase.running⟩⟩] :=
  ((filterBoringPods_keeps_interesting_pods _).1 (by decide)).trans (by decide)

/-! ## Claim C8: service port summarization -/

/-- C8: the three port arities render distinctly (the no-ports note; a
single ":port" with or without the target; a joined " ports " list), NodePort
services show the allocated node port or "<initializing>" while it is 0, and
the two concrete examples render as claimed. -/
theorem describeServicePorts_shapes :
    (∀ spec : ServiceSpec, spec.ports = [] → describeServicePorts spec = " no ports") ∧
    (∀ (spec : ServiceSpec) (p : ServicePort), spec.ports = [p] →
      describeServicePorts spec = ":" ++ portOrNodePort spec p ∨
      describeServicePorts spec =
        ":" ++ portOrNodePort spec p ++ " -> " ++ intOrStringText p.targetPort) ∧
    (∀ (spec : ServiceSpec) (p q : ServicePort) (rest : List ServicePort),
      spec.ports = p :: q :: rest →
      ∃ s : String, describeServicePorts spec = " ports " ++ s) ∧
    (∀ (spec : ServiceSpec) (p : ServicePort), spec.svcType = ServiceType.nodePort →
      p.nodePort = 0 → portOrNodePort spec p = "<initializing>") ∧
    (∀ (spec : ServiceSpec) (p : ServicePort), spec.svcType = ServiceType.nodePort →
      p.nodePort ≠ 0 → portOrNodePort spec p = toString p.nodePort) ∧
    describeServicePorts ⟨ServiceType.clusterIP, "172.30.0.1",
      [⟨80, IntOrString.int 8080, 0⟩]⟩ = ":80 -> 8080" ∧
    describeServicePorts ⟨ServiceType.nodePort, "172.30.0.1",
      [⟨80, IntOrString.int 8080, 0⟩]⟩ = ":<initializing> -> 8080" := by
  refine ⟨?_, ?_, ?_, ?_, ?_, by decide, by decide⟩
  · rintro ⟨ty, ip, ports⟩ hp
    cases hp
    rfl
  · rintro ⟨ty, ip, ports⟩ p hp
    cases hp
    dsimp only [describeServicePorts]
    split_ifs with h
    · exact Or.inl rfl
    · exact Or.inr rfl
  · rintro ⟨ty, ip, ports⟩ p q rest hp
    cases hp
    exact ⟨_, rfl⟩
  · intro spec p hty hnp
    unfold portOrNodePort
    rw [if_neg (by simp [hty]), if_pos hnp]
  · intro spec p hty hnp
    unfold portOrNodePort
    rw [if_neg (by simp [hty]), if_neg hnp]

/-- Witness for C8: the shape statements applied at the concrete claimed
service specs. -/
theorem describeServicePorts_shapes_witness :
    describeServicePorts ⟨ServiceType.clusterIP, "172.30.0.1", []⟩ = " no ports" ∧
    portOrNodePort ⟨ServiceType.nodePort, "172.30.0.1", [⟨80, IntOrString.int 8080, 0⟩]⟩
        ⟨80, IntOrString.int 8080, 0⟩ = "<initializing>" :=
  ⟨describeServicePorts_shapes.1 _ rfl,
   describeServicePorts_shapes.2.2.2.1 _ _ rfl (by decide)⟩

/-! ## Claim C1: genuine failures abort, forbidden failures are tolerated -/

theorem classifyLoadErrors_snd (forb : List String) (actual : List APIError) :
    ∀ errs : List APIError,
      (classifyLoadErrors forb actual errs).2 =
        actual ++ errs.filter (fun e => match e with
          | APIError.forbidden _ => false
          | _ => true)
  | [] => by simp [classifyLoadErrors]
  | APIError.forbidden (some k) :: rest => by
    simp only [classifyLoadErrors]
    split_ifs <;>
      simp [classifyLoadErrors_snd _ actual rest, List.filter_cons]
  | APIError.forbidden none :: rest => by
    simp [classifyLoadErrors, classifyLoadErrors_snd forb actual rest, List.filter_cons]
  | APIError.notFound :: rest => by
    simp [classifyLoadErrors, classifyLoadErrors_snd forb (actual ++ [APIError.notFound]) rest,
      List.filter_cons]
  | APIError.other m :: rest => by
    simp [classifyLoadErrors,
      classifyLoadErrors_snd forb (actual ++ [APIError.other m]) rest, List.filter_cons]

theorem classify_collect_eq_genuine (loaders : List (LoaderSpec α)) :
    (classifyLoadErrors [] [] (collectLoadErrors loaders)).2 = genuineFailures loaders := by
  rw [classifyLoadErrors_snd, List.nil_append]
  induction loaders with
  | nil => rfl
  | cons l ls ih =>
    rcases l with ⟨res, tol⟩
    rcases res with e | xs
    · rcases e with k | _ | m
      · simpa [collectLoadErrors, genuineFailures, loadResult, List.filterMap_cons,
          List.filter_cons] using ih
      · cases tol <;>
          simpa [collectLoadErrors, genuineFailures, loadResult, List.filterMap_cons,
            List.filter_cons] using ih
      · simpa [collectLoadErrors, genuineFailures, loadResult, List.filterMap_cons,
          List.filter_cons] using ih
    · simpa [collectLoadErrors, genuineFailures, loadResult, List.filterMap_cons] using ih

/-- C1: for every outcome of the ten-loader fan-out, if any genuine failure
remains after dropping Forbidden errors (the two build-related loaders having
already converted NotFound to an empty result), MakeGraph returns exactly the
genuine failures as its aggregated error and commits nothing to the graph;
if only Forbidden errors occurred it returns the committed graph and no
error. -/
theorem makeGraph_aggregates_genuine_failures
    (svc sa sec rc pod bc bld is dc rt : Except APIError (List Nat)) :
    (genuineFailures (standardLoaders svc sa sec rc pod bc bld is dc rt) ≠ [] →
      (makeGraph (standardLoaders svc sa sec rc pod bc bld is dc rt)).1 = [] ∧
      (makeGraph (standardLoaders svc sa sec rc pod bc bld is dc rt)).2.2 =
        some (genuineFailures (standardLoaders svc sa sec rc pod bc bld is dc rt))) ∧
    (genuineFailures (standardLoaders svc sa sec rc pod bc bld is dc rt) = [] →
      (makeGraph (standardLoaders svc sa sec rc pod bc bld is dc rt)).2.2 = none ∧
      (makeGraph (standardLoaders svc sa sec rc pod bc bld is dc rt)).1 =
        addAllToGraph (standardLoaders svc sa sec rc pod bc bld is dc rt)) := by
  have key := classify_collect_eq_genuine (standardLoaders svc sa sec rc pod bc bld is dc rt)
  constructor
  · intro hne
    unfold makeGraph
    rw [if_pos (by rw [key]; exact hne)]
    exact ⟨rfl, by rw [key]⟩
  · intro heq
    unfold makeGraph
    rw [if_neg (by rw [key, heq]; simp)]
    exact ⟨rfl, rfl⟩

/-- Witness for C1: one fatal lister failure among a forbidden one and a
tolerated NotFound aborts with exactly the fatal failure and an empty graph. -/
theorem makeGraph_aggregates_genuine_failures_witness :
    genuineFailures (standardLoaders (Except.error (APIError.other "boom"))
        (Except.error (APIError.forbidden (some "pods"))) (Except.ok [1]) (Except.ok [])
        (Except.ok []) (Except.error APIError.notFound) (Except.ok []) (Except.ok [])
        (Except.ok []) (Except.ok ([] : List Nat))) = [APIError.other "boom"] ∧
    (makeGraph (standardLoaders (Except.error (APIError.other "boom"))
        (Except.error (APIError.forbidden (some "pods"))) (Except.ok [1]) (Except.ok [])
        (Except.ok []) (Except.error APIError.notFound) (Except.ok []) (Except.ok [])
        (Except.ok []) (Except.ok ([] : List Nat)))).1 = [] ∧
    (makeGraph (standardLoaders (Except.error (APIError.other "boom"))
        (Except.error (APIError.forbidden (some "pods"))) (Except.ok [1]) (Except.ok [])
        (Except.ok []) (Except.error APIError.notFound) (Except.ok []) (Except.ok [])
        (Except.ok []) (Except.ok ([] : List Nat)))).2.2 =
      some (genuineFailures (standardLoaders (Except.error (APIError.other "boom"))
        (Except.error (APIError.forbidden (some "pods"))) (Except.ok [1]) (Except.ok [])
        (Except.ok []) (Except.error APIError.notFound) (Except.ok []) (Except.ok [])
        (Except.ok []) (Except.ok ([] : List Nat)))) :=
  ⟨by decide,
   ((makeGraph_aggregates_genuine_failures _ _ _ _ _ _ _ _ _ _).1 (by decide)).1,
   ((makeGraph_aggregates_genuine_failures _ _ _ _ _ _ _ _ _ _).1 (by decide)).2⟩

/-! ## Claim C9: forbidden errors without a kind vanish silently -/

/-- C9: a loader failure classified Forbidden whose status error carries no
details (or an empty kind) changes nothing: MakeGraph behaves exactly as if
the loader had not failed at all — same graph, same forbidden-kind set (so
no advisory marker is created for it), no abort. -/
theorem forbidden_without_kind_invisible (kindOpt : Option String)
    (hk : kindOpt = none ∨ kindOpt = some "") (tol : Bool)
    (loaders : List (LoaderSpec Nat)) :
    makeGraph (⟨Except.error (APIError.forbidden kindOpt), tol⟩ :: loaders) =
      makeGraph loaders ∧
    createForbiddenMarkers
        (makeGraph (⟨Except.error (APIError.forbidden kindOpt), tol⟩ :: loaders)).2.1 =
      createForbiddenMarkers (makeGraph loaders).2.1 := by
  have h1 : collectLoadErrors (⟨Except.error (APIError.forbidden kindOpt), tol⟩ :: loaders) =
      APIError.forbidden kindOpt :: collectLoadErrors loaders := by
    cases tol <;> rfl
  have h2 : ∀ errs, classifyLoadErrors [] [] (APIError.forbidden kindOpt :: errs) =
      classifyLoadErrors [] [] errs := by
    intro errs
    rcases hk with rfl | rfl
    · rfl
    · simp [classifyLoadErrors]
  have h3 : addAllToGraph (⟨Except.error (APIError.forbidden kindOpt), tol⟩ :: loaders) =
      addAllToGraph loaders := by
    cases tol <;> rfl
  have hmain : makeGraph (⟨Except.error (APIError.forbidden kindOpt), tol⟩ :: loaders) =
      makeGraph loaders := by
    unfold makeGraph
    simp only [h1, h2, h3]
  exact ⟨hmain, by rw [hmain]⟩

/-- Witness for C9: a detail-less forbidden failure next to one successful
loader is invisible. -/
theorem forbidden_without_kind_invisible_witness :
    makeGraph (⟨Except.error (APIError.forbidden none), false⟩ ::
        [(⟨Except.ok [1], false⟩ : LoaderSpec Nat)]) =
      makeGraph [(⟨Except.ok [1], false⟩ : LoaderSpec Nat)] :=
  (forbidden_without_kind_invisible none (Or.inl rfl) false
    [(⟨Except.ok [1], false⟩ : LoaderSpec Nat)]).1

/-! ## Claim C3: load, then commit, then link -/

theorem makeGraphTrace_event_positions (loaders : List (LoaderSpec α)) (k : Nat)
    (hk : k < (makeGraphTrace loaders).length) :
    (isLoadEvent ((makeGraphTrace loaders).get ⟨k, hk⟩) = true ↔ k < loaders.length) ∧
    (isCommitEvent ((makeGraphTrace loaders).get ⟨k, hk⟩) = true ↔
      loaders.length ≤ k ∧ k < 2 * loaders.length) ∧
    (isLinkEvent ((makeGraphTrace loaders).get ⟨k, hk⟩) = true ↔
      2 * loaders.length ≤ k) := by
  have hk' := hk
  unfold makeGraphTrace at hk' ⊢
  rw [List.get_eq_getElem]
  by_cases h1 : k < loaders.length
  · rw [List.getElem_append_left (by simpa using h1)]
    rw [List.getElem_map, List.getElem_range]
    simp [isLoadEvent, isCommitEvent, isLinkEvent, h1]
    omega
  · rw [List.getElem_append_right (by simpa using h1)]
    simp only [List.length_map, List.length_range]
    split_ifs with hgen
    · exfalso
      simp [List.length_append, hgen] at hk'
      omega
    · by_cases h2 : k - loaders.length < loaders.length
      · rw [List.getElem_append_left (by simpa using h2)]
        rw [List.getElem_map, List.getElem_range]
        simp [isLoadEvent, isCommitEvent, isLinkEvent]
        omega
      · rw [List.getElem_append_right (by simpa using h2)]
        rw [List.getElem_map]
        simp [isLoadEvent, isCommitEvent, isLinkEvent]
        omega

/-- C3: in every MakeGraph trace, all loader Load completions come before all
AddToGraph commits, and all commits come before every edge-inference call:
nodes are fully staged and committed before any edge is inferred. -/
theorem makeGraph_load_then_commit_then_link (loaders : List (LoaderSpec Nat))
    (i j : Nat) (hi : i < (makeGraphTrace loaders).length)
    (hj : j < (makeGraphTrace loaders).length) :
    (isLoadEvent ((makeGraphTrace loaders).get ⟨i, hi⟩) = true →
      isCommitEvent ((makeGraphTrace loaders).get ⟨j, hj⟩) = true → i < j) ∧
    (isCommitEvent ((makeGraphTrace loaders).get ⟨i, hi⟩) = true →
      isLinkEvent ((makeGraphTrace loaders).get ⟨j, hj⟩) = true → i < j) ∧
    (isLoadEvent ((makeGraphTrace loaders).get ⟨i, hi⟩) = true →
      isLinkEvent ((makeGraphTrace loaders).get ⟨j, hj⟩) = true → i < j) := by
  have hi' := makeGraphTrace_event_positions loaders i hi
  have hj' := makeGraphTrace_event_positions loaders j hj
  refine ⟨fun ha hb => ?_, fun ha hb => ?_, fun ha hb => ?_⟩
  · have := hi'.1.mp ha
    have := hj'.2.1.mp hb
    omega
  · have := hi'.2.1.mp ha
    have := hj'.2.2.mp hb
    omega
  · have := hi'.1.mp ha
    have := hj'.2.2.mp hb
    omega

/-- Witness for C3: with one successful loader, the commit at position 1
precedes the first edge-inference call at position 2. -/
theorem makeGraph_load_then_commit_then_link_witness :
    isCommitEvent ((makeGraphTrace [(⟨Except.ok [0], false⟩ : LoaderSpec Nat)]).get
        ⟨1, by decide⟩) = true ∧
    isLinkEvent ((makeGraphTrace [(⟨Except.ok [0], false⟩ : LoaderSpec Nat)]).get
        ⟨2, by decide⟩) = true ∧ 1 < 2 :=
  ⟨by decide, by decide,
   (makeGraph_load_then_commit_then_link [(⟨Except.ok [0], false⟩ : LoaderSpec Nat)] 1 2
      (by decide) (by decide)).2.1 (by decide) (by decide)⟩

/-! ## Claim C2: the covered set grows monotonically across ordered passes -/

/-- C2: within one Describe run the covered set only grows — each of the five
partition passes, run in the fixed order service groups, deployment-config
pipelines, bare replication controllers, image pipelines from build configs,
bare pods, receives the union of the node IDs claimed by every earlier pass,
and the final covered set is the fold of exactly that pass order. -/
theorem describe_covered_set_monotone_ordered {V : Type} (passes : PassFamily V) :
    ((∅ : Finset Nat) ⊆ coveredAfterServices passes ∧
     coveredAfterServices passes ⊆ coveredAfterDCs passes ∧
     coveredAfterDCs passes ⊆ coveredAfterRCs passes ∧
     coveredAfterRCs passes ⊆ coveredAfterImages passes ∧
     coveredAfterImages passes ⊆ coveredAfterPods passes) ∧
    (coveredAfterServices passes = (passes PassKind.serviceGroups ∅).2 ∧
     coveredAfterDCs passes =
       (passes PassKind.serviceGroups ∅).2 ∪
         (passes PassKind.dcPipelines (coveredAfterServices passes)).2 ∧
     coveredAfterRCs passes =
       (passes PassKind.serviceGroups ∅).2 ∪
         (passes PassKind.dcPipelines (coveredAfterServices passes)).2 ∪
         (passes PassKind.bareRCs (coveredAfterDCs passes)).2 ∧
     coveredAfterImages passes =
       (passes PassKind.serviceGroups ∅).2 ∪
         (passes PassKind.dcPipelines (coveredAfterServices passes)).2 ∪
         (passes PassKind.bareRCs (coveredAfterDCs passes)).2 ∪
         (passes PassKind.imagePipelinesFromBuildConfigs (coveredAfterRCs passes)).2 ∧
     coveredAfterPods passes =
       (passes PassKind.serviceGroups ∅).2 ∪
         (passes PassKind.dcPipelines (coveredAfterServices passes)).2 ∪
         (passes PassKind.bareRCs (coveredAfterDCs passes)).2 ∪
         (passes PassKind.imagePipelinesFromBuildConfigs (coveredAfterRCs passes)).2 ∪
         (passes PassKind.barePods (coveredAfterImages passes)).2) ∧
    describePassOrder = [PassKind.serviceGroups, PassKind.dcPipelines, PassKind.bareRCs,
      PassKind.imagePipelinesFromBuildConfigs, PassKind.barePods] ∧
    coveredAfterPods passes = runPasses passes describePassOrder ∅ ∧
    (describePartition passes).2 = coveredAfterPods passes := by
  refine ⟨⟨?_, ?_, ?_, ?_, ?_⟩, ⟨?_, ?_, ?_, ?_, ?_⟩, rfl, ?_, rfl⟩
  · exact Finset.empty_subset _
  · exact Finset.subset_union_left
  · exact Finset.subset_union_left
  · exact Finset.subset_union_left
  · exact Finset.subset_union_left
  · rw [coveredAfterServices, Finset.empty_union]
  · rw [coveredAfterDCs, coveredAfterServices, Finset.empty_union]
  · rw [coveredAfterRCs, coveredAfterDCs, coveredAfterServices, Finset.empty_union]
  · rw [coveredAfterImages, coveredAfterRCs, coveredAfterDCs, coveredAfterServices,
      Finset.empty_union]
  · rw [coveredAfterPods, coveredAfterImages, coveredAfterRCs, coveredAfterDCs,
      coveredAfterServices, Finset.empty_union]
  · rw [describePassOrder]
    simp only [runPasses]
    rw [coveredAfterPods, coveredAfterImages, coveredAfterRCs, coveredAfterDCs,
      coveredAfterServices]

/-! ## Claim C10: the build timestamp fallback chain orders builds -/

/-- C10: the timestamp ordering builds is `buildTimestamp` with its fixed
fallback chain — completion time if non-zero, else start time if non-zero,
else creation time, and the zero time for a nil build — and
`describeAdditionalBuildDetail` uses exactly it: the last unsuccessful build
is shown iff its timestamp exceeds the last successful one, and the active
builds print after the terminal lines iff the first active build's timestamp
is below the later of the two terminal timestamps. -/
theorem buildTimestamp_fallback_orders_builds :
    buildTimestamp none = 0 ∧
    (∀ b : KBuild,
      (isZeroTime b.completionTimestamp = false →
        buildTimestamp (some b) = b.completionTimestamp.getD 0) ∧
      (isZeroTime b.completionTimestamp = true → isZeroTime b.startTimestamp = false →
        buildTimestamp (some b) = b.startTimestamp.getD 0) ∧
      (isZeroTime b.completionTimestamp = true → isZeroTime b.startTimestamp = true →
        buildTimestamp (some b) = b.creationTimestamp)) ∧
    (∀ (bcName : String) (succ unsucc : Option KBuild) (a : KBuild)
        (rest : List KBuild) (pushR incl : Bool),
      describeAdditionalBuildDetail (some bcName) succ unsucc (a :: rest) pushR incl =
        (if buildTimestamp (some a) <
            max (buildTimestamp succ) (buildTimestamp unsucc) then
          ((match succ with
            | some b => [describeBuildPhase b (some (buildTimestamp succ)) bcName pushR]
            | none => []) ++
           (if buildTimestamp succ < buildTimestamp unsucc then
              match unsucc with
              | some b => [describeBuildPhase b (some (buildTimestamp unsucc)) bcName pushR]
              | none => []
            else [])) ++
          (a :: rest).map (fun b => describeBuildPhase b none bcName pushR)
        else
          (a :: rest).map (fun b => describeBuildPhase b none bcName pushR) ++
          ((match succ with
            | some b => [describeBuildPhase b (some (buildTimestamp succ)) bcName pushR]
            | none => []) ++
           (if buildTimestamp succ < buildTimestamp unsucc then
              match unsucc with
              | some b => [describeBuildPhase b (some (buildTimestamp unsucc)) bcName pushR]
              | none => []
            else [])))) := by
  refine ⟨rfl, ?_, ?_⟩
  · intro b
    refine ⟨?_, ?_, ?_⟩
    · intro h
      simp [buildTimestamp, h]
    · intro h1 h2
      simp [buildTimestamp, h1, h2]
    · intro h1 h2
      simp [buildTimestamp, h1, h2]
  · intro bcName succ unsucc a rest pushR incl
    have hmax : ∀ pT fT : Nat, (if pT > fT then pT else fT) = max pT fT := by
      intro pT fT
      split_ifs <;> omega
    cases succ with
    | some sb =>
      cases unsucc with
      | some ub =>
        dsimp only [describeAdditionalBuildDetail]
        rw [if_pos (show (incl || decide ((a :: rest).length > 0)) = true by simp), hmax]
        split_ifs <;>
          first
            | rfl
            | (exfalso
               simp_all [List.length_append])
      | none =>
        dsimp only [describeAdditionalBuildDetail]
        rw [if_pos (show (incl || decide ((a :: rest).length > 0)) = true by simp),
          show buildTimestamp (none : Option KBuild) = 0 from rfl, hmax]
        split_ifs <;>
          first
            | rfl
            | (exfalso
               simp_all [List.length_append])
    | none =>
      cases unsucc with
      | some ub =>
        dsimp only [describeAdditionalBuildDetail]
        rw [show buildTimestamp (none : Option KBuild) = 0 from rfl, hmax]
        split_ifs <;>
          first
            | rfl
            | (exfalso
               simp_all [List.length_append])
      | none =>
        dsimp only [describeAdditionalBuildDetail]
        rw [show buildTimestamp (none : Option KBuild) = 0 from rfl, hmax]
        split_ifs <;>
          first
            | rfl
            | (exfalso
               simp_all [List.length_append])

/-- Witness for C10: a build with a completion time uses it; a build whose
completion time is zero falls back to its start time. -/
theorem buildTimestamp_fallback_orders_builds_witness :
    isZeroTime (some 5) = false ∧
    buildTimestamp (some ⟨"b-1", 3, BuildPhase.complete, some 5, some 2, none, none⟩) = 5 ∧
    buildTimestamp (some ⟨"b-2", 3, BuildPhase.failed, some 0, some 2, none, none⟩) = 2 :=
  ⟨by decide,
   (buildTimestamp_fallback_orders_builds.2.1
      ⟨"b-1", 3, BuildPhase.complete, some 5, some 2, none, none⟩).1 (by decide),
   (buildTimestamp_fallback_orders_builds.2.1
      ⟨"b-2", 3, BuildPhase.failed, some 0, some 2, none, none⟩).2.1 (by decide) (by decide)⟩
